import Mathlib

/-!
Verification development for the PDF banner-replacer program (src/main.py).

The core pipeline is embedded shallowly:
* `fitRect` — the aspect-preserving fit-and-center computation
  (main.py lines 136-140);
* `create_banner_pdf_from_image` — renders a single-page banner PDF
  (main.py lines 128-148), including Python `int()` truncation and the
  PIL resize step;
* `extractFirstPageSize` — first-page geometry extraction
  (main.py lines 153-161);
* `replace_first_page_with_banner` — the splice operation
  (main.py lines 151-175), modelled with an explicit list of file writes
  so that frame conditions about the source file are expressible;
* `banner_path_for_chat`, `bannerPdfTmpPath` — the temporary-path scheme
  (main.py lines 61-64 and 163).

Machine floats are modelled as exact rationals; page content is an opaque
byte list, so list equality is byte-for-byte identity of page content.
-/

namespace BannerBot

/-- Error outcomes observable from the embedded pipeline.  The first three
constructors model the Python exceptions the code can actually raise; the
last models the typed `InvalidDimension` error kind named by the
specification (which no code path produces). -/
inductive BotError where
  /-- Python `ZeroDivisionError`, raised by `width_pt / iw` or
  `height_pt / ih` when the image has a zero pixel dimension
  (main.py line 136). -/
  | zeroDivisionError
  /-- Models the `ValueError` PIL `Image.resize` raises when a target
  dimension is below 1 (`height and width must be > 0`), reachable from
  main.py line 144. -/
  | resizeValueError
  /-- Models `ValueError("PDF has no pages")` raised at main.py line 155;
  the specification names this error kind `EmptyDocument`. -/
  | pdfNoPagesError
  /-- The specification's `InvalidDimension` error kind. -/
  | invalidDimension
  deriving DecidableEq

/-- A decoded raster image: pixel dimensions plus a pixel buffer. -/
structure RasterImage where
  width : Nat
  height : Nat
  data : List Nat
  deriving DecidableEq

/-- Content of a page.  Pages taken from an existing PDF are opaque byte
streams (`raw`); the rendered banner page records the resized image and the
placement rectangle passed to reportlab `drawImage` (main.py line 146).
The pixel arithmetic of LANCZOS resampling is abstracted: the resized image
keeps the source buffer together with the resize target dimensions, since
no claim concerns individual pixel values. -/
inductive PageContent where
  | raw (bytes : List Nat)
  | imageDraw (img : RasterImage) (x y w h : ℚ)
  deriving DecidableEq

/-- A PDF page: its MediaBox `(llx, lly, urx, ury)` in points, and its
content. -/
structure Page where
  mediaBox : ℚ × ℚ × ℚ × ℚ
  content : PageContent
  deriving DecidableEq

/-- A PDF document: an ordered sequence of pages (pikepdf `Pdf.pages`). -/
structure Document where
  pages : List Page
  deriving DecidableEq

/-- The fit result of main.py lines 136-140: uniform scale, draw size and
centering offsets (`ratio`, `new_w`, `new_h`, `x`, `y` in the source). -/
structure FitResult where
  scale : ℚ
  drawWidth : ℚ
  drawHeight : ℚ
  offsetX : ℚ
  offsetY : ℚ
  deriving DecidableEq

/-- The fit-and-center computation of `create_banner_pdf_from_image`
(main.py lines 136-140). -/
def fitRect (iw ih width_pt height_pt : ℚ) : FitResult :=
  let ratio := min (width_pt / iw) (height_pt / ih)
  ⟨ ratio, iw * ratio, ih * ratio,
    (width_pt - iw * ratio) / 2, (height_pt - ih * ratio) / 2⟩

/-- Python `int()` applied to a float: truncation toward zero. -/
def pyInt (q : ℚ) : Int := if 0 ≤ q then ⌊q⌋ else ⌈q⌉

/-- Models PIL `Image.resize((w, h), Image.LANCZOS)` as called at
main.py line 144: the Pillow resampler rejects target sizes below 1 with
`ValueError: height and width must be > 0`; otherwise it returns an image
with the requested dimensions (resampled pixel data abstracted as the
source buffer). -/
def pilResize (img : RasterImage) (w h : Int) : Except BotError RasterImage :=
  if w < 1 ∨ h < 1 then .error .resizeValueError
  else .ok ⟨w.toNat, h.toNat, img.data⟩

/-- Embeds `create_banner_pdf_from_image` (main.py lines 128-148): computes
the fit, resizes the image, and produces a single-page PDF whose page box
is `(0, 0, width_pt, height_pt)` with the image drawn at the fitted
rectangle.  The Python code divides by the pixel dimensions before any
validation, so a zero pixel dimension raises `ZeroDivisionError`; no
positivity check on any of the four dimensions exists. -/
def create_banner_pdf_from_image (img : RasterImage) (width_pt height_pt : ℚ) :
    Except BotError Document :=
  if img.width = 0 ∨ img.height = 0 then .error .zeroDivisionError
  else
    let f := fitRect (img.width : ℚ) (img.height : ℚ) width_pt height_pt
    match pilResize img (pyInt f.drawWidth) (pyInt f.drawHeight) with
    | .error e => .error e
    | .ok resized =>
      .ok ⟨[⟨(0, 0, width_pt, height_pt),
        .imageDraw resized f.offsetX f.offsetY f.drawWidth f.drawHeight⟩]⟩

/-- `DATA_DIR` defaults to "." (main.py line 41).  Paths are modelled as
lists of components; `os.path.join` is list concatenation. -/
def DATA_DIR : String := "."

/-- main.py line 42. -/
def BANNER_DIR : List String := [DATA_DIR, "banners"]

/-- main.py line 43. -/
def TMP_DIR : List String := [DATA_DIR, "tmp"]

/-- Models `os.path.basename`: the last path component. -/
def basename (p : List String) : String := p.getLastD ""

/-- Embeds `banner_path_for_chat` (main.py lines 61-64). -/
def banner_path_for_chat (chat_id : Int) : List String :=
  BANNER_DIR ++ [toString chat_id, "banner.png"]

/-- The intermediate banner PDF path chosen at main.py line 163:
`os.path.join(TMP_DIR, "banner_" + basename(banner_img_path) + ".pdf")`. -/
def bannerPdfTmpPath (banner_img_path : List String) : List String :=
  TMP_DIR ++ ["banner_" ++ basename banner_img_path ++ ".pdf"]

/-- Download path used for an incoming PDF (main.py line 201). -/
def origDownloadPath (message_id : Nat) : List String :=
  TMP_DIR ++ [toString message_id ++ "_orig.pdf"]

/-- Output path used for the edited PDF (main.py line 202). -/
def outFilePath (message_id : Nat) : List String :=
  TMP_DIR ++ [toString message_id ++ "_out.pdf"]

/-- The first-page geometry extraction inlined at main.py lines 153-161:
fails when the document has no pages (`ValueError("PDF has no pages")`),
otherwise returns `(abs (urx - llx), abs (ury - lly))` computed from the
first page's MediaBox. -/
def extractFirstPageSize (doc : Document) : Except BotError (ℚ × ℚ) :=
  match doc.pages with
  | [] => .error .pdfNoPagesError
  | p :: _ =>
    .ok (|p.mediaBox.2.2.1 - p.mediaBox.1|, |p.mediaBox.2.2.2 - p.mediaBox.2.1|)

/-- Result of one run of `replace_first_page_with_banner`: the returned
document (or error) together with the list of files written, as
`(path, document)` pairs in write order.  An exception raised before a
save leaves the write list empty, matching the code: reportlab `Canvas`
and pikepdf `Pdf.save` write only on their save calls. -/
structure SpliceOutcome where
  result : Except BotError Document
  writes : List (List String × Document)

/-- Embeds `replace_first_page_with_banner` (main.py lines 151-175).  The
source PDF at `orig_pdf_path` is opened read-only; the function writes the
intermediate banner PDF to `bannerPdfTmpPath banner_img_path` and the
merged output (banner pages followed by source pages from index 1 onward)
to `output_pdf_path`. -/
def replace_first_page_with_banner (orig_pdf_path : List String)
    (original : Document) (banner_img_path : List String)
    (banner_img : RasterImage) (output_pdf_path : List String) :
    SpliceOutcome :=
  match extractFirstPageSize original with
  | .error e => ⟨.error e, []⟩
  | .ok (width_pt, height_pt) =>
    match create_banner_pdf_from_image banner_img width_pt height_pt with
    | .error e => ⟨.error e, []⟩
    | .ok banner_pdf =>
      let out : Document := ⟨banner_pdf.pages ++ original.pages.drop 1⟩
      ⟨.ok out,
        [(bannerPdfTmpPath banner_img_path, banner_pdf), (output_pdf_path, out)]⟩

/-- A two-page sample source document; its first page has box
`(0, 0, 10, 10)`. -/
def sampleDoc : Document :=
  ⟨[⟨(0, 0, 10, 10), .raw [1]⟩, ⟨(0, 0, 612, 792), .raw [2]⟩]⟩

/-- A one-by-one-pixel sample banner image. -/
def sampleImg : RasterImage := ⟨1, 1, [7]⟩

/-- The banner document the sample inputs render to. -/
def sampleBannerDoc : Document :=
  ⟨[⟨(0, 0, 10, 10), .imageDraw ⟨10, 10, [7]⟩ 0 0 10 10⟩]⟩

/-! ## Shared lemmas -/

/-- A successful run of the banner renderer always returns a one-page
document: the reportlab canvas receives exactly one `showPage`. -/
theorem create_banner_ok_pages (img : RasterImage) (w h : ℚ) (d : Document)
    (hok : create_banner_pdf_from_image img w h = .ok d) :
    ∃ p, d.pages = [p] := by
  unfold create_banner_pdf_from_image at hok
  split at hok
  · simp at hok
  · dsimp only [] at hok
    split at hok
    · simp at hok
    · simp only [Except.ok.injEq] at hok
      exact ⟨_, by rw [← hok]⟩

/-! ## Claim theorems -/

/-- C1: for every source document with at least one page, a successful run
of `replace_first_page_with_banner` returns a document whose page sequence
is the single rendered banner page followed by the source pages from
index 1 onward in their original order, so the output page count equals
the source page count. -/
theorem splice_output_is_banner_then_tail
    (orig_pdf_path banner_img_path output_pdf_path : List String)
    (original : Document) (banner_img : RasterImage) (out : Document)
    (hne : original.pages ≠ [])
    (hok : (replace_first_page_with_banner orig_pdf_path original
      banner_img_path banner_img output_pdf_path).result = .ok out) :
    (∃ bp, out.pages = bp :: original.pages.drop 1) ∧
      out.pages.length = original.pages.length := by
  have hlen : 0 < original.pages.length := List.length_pos.mpr hne
  unfold replace_first_page_with_banner at hok
  split at hok
  · simp at hok
  · split at hok
    · simp at hok
    · rename_i heqCreate
      obtain ⟨p, hp⟩ := create_banner_ok_pages _ _ _ _ heqCreate
      simp only [Except.ok.injEq] at hok
      subst hok
      refine ⟨⟨p, by rw [hp]; rfl⟩, ?_⟩
      simp only [hp, List.length_append, List.length_drop, List.length_cons,
        List.length_nil]
      omega

/-- C1 witness: the sample two-page document spliced with the sample image
yields the banner page followed by the original second page. -/
theorem splice_output_is_banner_then_tail_witness :
    (∃ bp, (⟨sampleBannerDoc.pages ++ sampleDoc.pages.drop 1⟩ : Document).pages =
      bp :: sampleDoc.pages.drop 1) ∧
    (⟨sampleBannerDoc.pages ++ sampleDoc.pages.drop 1⟩ : Document).pages.length =
      sampleDoc.pages.length :=
  splice_output_is_banner_then_tail (origDownloadPath 5) (banner_path_for_chat 3)
    (outFilePath 5) sampleDoc sampleImg _ (by simp [sampleDoc]) (by
      norm_num [replace_first_page_with_banner, extractFirstPageSize,
        create_banner_pdf_from_image, sampleDoc, sampleImg, sampleBannerDoc,
        fitRect, pyInt, pilResize, min_def, Int.toNat_ofNat]
      rfl)

/-- C2: splicing never writes to the source document's path (the source is
opened read-only and left unmodified), and on success the output pages from
index 1 onward are byte-identical to the source pages from index 1
onward. -/
theorem splice_preserves_source_and_tail_bytes
    (orig_pdf_path banner_img_path output_pdf_path : List String)
    (original : Document) (banner_img : RasterImage) (out : Document)
    (hne : original.pages ≠ [])
    (h₁ : orig_pdf_path ≠ bannerPdfTmpPath banner_img_path)
    (h₂ : orig_pdf_path ≠ output_pdf_path)
    (hok : (replace_first_page_with_banner orig_pdf_path original
      banner_img_path banner_img output_pdf_path).result = .ok out) :
    orig_pdf_path ∉ (replace_first_page_with_banner orig_pdf_path original
      banner_img_path banner_img output_pdf_path).writes.map Prod.fst ∧
      out.pages.drop 1 = original.pages.drop 1 := by
  unfold replace_first_page_with_banner at hok ⊢
  split at hok
  · simp at hok
  · split at hok
    · simp at hok
    · rename_i banner_pdf heqCreate
      obtain ⟨p, hp⟩ := create_banner_ok_pages _ _ _ _ heqCreate
      simp only [Except.ok.injEq] at hok
      subst hok
      constructor
      · simp [h₁, h₂]
      · simp [hp]

/-- C2 witness: on the sample inputs, the source path is never written and
the output tail equals the source tail. -/
theorem splice_preserves_source_and_tail_bytes_witness :
    origDownloadPath 5 ∉ (replace_first_page_with_banner (origDownloadPath 5)
      sampleDoc (banner_path_for_chat 3) sampleImg
      (outFilePath 5)).writes.map Prod.fst ∧
    (⟨sampleBannerDoc.pages ++ sampleDoc.pages.drop 1⟩ : Document).pages.drop 1 =
      sampleDoc.pages.drop 1 :=
  splice_preserves_source_and_tail_bytes (origDownloadPath 5)
    (banner_path_for_chat 3) (outFilePath 5) sampleDoc sampleImg _
    (by simp [sampleDoc]) (by decide) (by decide) (by
      norm_num [replace_first_page_with_banner, extractFirstPageSize,
        create_banner_pdf_from_image, sampleDoc, sampleImg, sampleBannerDoc,
        fitRect, pyInt, pilResize, min_def, Int.toNat_ofNat]
      rfl)

/-- C3: for strictly positive inputs the fit computation returns
`scale = min (tw / iw) (th / ih)`, `drawWidth = iw * scale`,
`drawHeight = ih * scale`, `offsetX = (tw - drawWidth) / 2` and
`offsetY = (th - drawHeight) / 2`. -/
theorem fit_formula (iw ih tw th : ℚ)
    (hiw : 0 < iw) (hih : 0 < ih) (htw : 0 < tw) (hth : 0 < th) :
    fitRect iw ih tw th =
      ⟨min (tw / iw) (th / ih),
        iw * min (tw / iw) (th / ih),
        ih * min (tw / iw) (th / ih),
        (tw - iw * min (tw / iw) (th / ih)) / 2,
        (th - ih * min (tw / iw) (th / ih)) / 2⟩ := rfl

/-- C3 witness: a 1000 by 500 image fit into a 612 by 792 target gives
scale 0.612, draw size 612 by 306, and offsets 0 and 243. -/
theorem fit_formula_witness :
    (0 : ℚ) < 1000 ∧ (0 : ℚ) < 500 ∧ (0 : ℚ) < 612 ∧ (0 : ℚ) < 792 ∧
    fitRect 1000 500 612 792 = ⟨153 / 250, 612, 306, 0, 243⟩ := by
  refine ⟨by norm_num, by norm_num, by norm_num, by norm_num, ?_⟩
  rw [fit_formula 1000 500 612 792 (by norm_num) (by norm_num) (by norm_num)
    (by norm_num)]
  norm_num [min_def]

/-- C4: for strictly positive inputs the draw rectangle fits inside the
target on both axes, is fully contained in
`[0, tw] x [0, th]`, and preserves the aspect ratio exactly. -/
theorem fit_contained_and_aspect (iw ih tw th : ℚ)
    (hiw : 0 < iw) (hih : 0 < ih) (htw : 0 < tw) (hth : 0 < th) :
    (fitRect iw ih tw th).drawWidth ≤ tw ∧
    (fitRect iw ih tw th).drawHeight ≤ th ∧
    0 ≤ (fitRect iw ih tw th).offsetX ∧
    0 ≤ (fitRect iw ih tw th).offsetY ∧
    (fitRect iw ih tw th).offsetX + (fitRect iw ih tw th).drawWidth ≤ tw ∧
    (fitRect iw ih tw th).offsetY + (fitRect iw ih tw th).drawHeight ≤ th ∧
    (fitRect iw ih tw th).drawWidth / (fitRect iw ih tw th).drawHeight =
      iw / ih := by
  have hs : 0 < min (tw / iw) (th / ih) :=
    lt_min (div_pos htw hiw) (div_pos hth hih)
  have hw : iw * min (tw / iw) (th / ih) ≤ tw := by
    calc iw * min (tw / iw) (th / ih) ≤ iw * (tw / iw) :=
          mul_le_mul_of_nonneg_left (min_le_left _ _) hiw.le
      _ = tw := by field_simp
  have hh : ih * min (tw / iw) (th / ih) ≤ th := by
    calc ih * min (tw / iw) (th / ih) ≤ ih * (th / ih) :=
          mul_le_mul_of_nonneg_left (min_le_right _ _) hih.le
      _ = th := by field_simp
  have haspect : iw * min (tw / iw) (th / ih) / (ih * min (tw / iw) (th / ih)) =
      iw / ih := by
    rw [div_eq_div_iff (by positivity) hih.ne']
    ring
  simp only [fitRect]
  refine ⟨hw, hh, ?_, ?_, ?_, ?_, haspect⟩ <;> linarith

/-- C4 witness: containment and aspect preservation at the concrete
1000 by 500 image against the 612 by 792 target. -/
theorem fit_contained_and_aspect_witness :
    (fitRect 1000 500 612 792).drawWidth ≤ 612 ∧
    (fitRect 1000 500 612 792).drawHeight ≤ 792 ∧
    0 ≤ (fitRect 1000 500 612 792).offsetX ∧
    0 ≤ (fitRect 1000 500 612 792).offsetY ∧
    (fitRect 1000 500 612 792).offsetX + (fitRect 1000 500 612 792).drawWidth ≤ 612 ∧
    (fitRect 1000 500 612 792).offsetY + (fitRect 1000 500 612 792).drawHeight ≤ 792 ∧
    (fitRect 1000 500 612 792).drawWidth / (fitRect 1000 500 612 792).drawHeight =
      1000 / 500 :=
  fit_contained_and_aspect 1000 500 612 792 (by norm_num) (by norm_num)
    (by norm_num) (by norm_num)

/-- C5: for every document with a first page, geometry extraction returns
the non-negative absolute coordinate differences of that page's
MediaBox. -/
theorem extract_abs_size (doc : Document) (p : Page) (rest : List Page)
    (hp : doc.pages = p :: rest) :
    extractFirstPageSize doc =
      .ok (|p.mediaBox.2.2.1 - p.mediaBox.1|,
        |p.mediaBox.2.2.2 - p.mediaBox.2.1|) ∧
    0 ≤ |p.mediaBox.2.2.1 - p.mediaBox.1| ∧
    0 ≤ |p.mediaBox.2.2.2 - p.mediaBox.2.1| := by
  unfold extractFirstPageSize
  rw [hp]
  exact ⟨rfl, abs_nonneg _, abs_nonneg _⟩

/-- C5 witness: the box `(0, 0, 595, 842)` and the swapped-corner box
`(595, 842, 0, 0)` both yield the size `(595, 842)`. -/
theorem extract_abs_size_witness :
    extractFirstPageSize ⟨[⟨(0, 0, 595, 842), .raw []⟩]⟩ = .ok (595, 842) ∧
    extractFirstPageSize ⟨[⟨(595, 842, 0, 0), .raw []⟩]⟩ = .ok (595, 842) := by
  constructor
  · rw [(extract_abs_size ⟨[⟨(0, 0, 595, 842), .raw []⟩]⟩ _ _ rfl).1]
    norm_num
  · rw [(extract_abs_size ⟨[⟨(595, 842, 0, 0), .raw []⟩]⟩ _ _ rfl).1]
    norm_num

/-- C6: on a zero-page source document both the geometry extraction and the
whole splice fail with the empty-document error
(`ValueError("PDF has no pages")`, the specification's `EmptyDocument`),
the failure precedes any rendering or merging, and no file is written. -/
theorem empty_document_fails_early
    (orig_pdf_path banner_img_path output_pdf_path : List String)
    (original : Document) (banner_img : RasterImage)
    (hempty : original.pages = []) :
    extractFirstPageSize original = .error .pdfNoPagesError ∧
    (replace_first_page_with_banner orig_pdf_path original banner_img_path
      banner_img output_pdf_path).result = .error .pdfNoPagesError ∧
    (replace_first_page_with_banner orig_pdf_path original banner_img_path
      banner_img output_pdf_path).writes = [] := by
  have h : extractFirstPageSize original = .error .pdfNoPagesError := by
    unfold extractFirstPageSize
    rw [hempty]
  refine ⟨h, ?_, ?_⟩ <;>
    · unfold replace_first_page_with_banner
      rw [h]

/-- C6 witness: the concrete zero-page document fails with the
empty-document error and writes nothing. -/
theorem empty_document_fails_early_witness :
    extractFirstPageSize ⟨[]⟩ = .error .pdfNoPagesError ∧
    (replace_first_page_with_banner (origDownloadPath 9) ⟨[]⟩
      (banner_path_for_chat 4) sampleImg (outFilePath 9)).result =
      .error .pdfNoPagesError ∧
    (replace_first_page_with_banner (origDownloadPath 9) ⟨[]⟩
      (banner_path_for_chat 4) sampleImg (outFilePath 9)).writes = [] :=
  empty_document_fails_early (origDownloadPath 9) (banner_path_for_chat 4)
    (outFilePath 9) ⟨[]⟩ sampleImg rfl

/-- C7 counterexample: with `imageWidth = 0` (a non-positive dimension) the
code fails with an unhandled division-by-zero error, not with the
specification's `InvalidDimension` error: no code path produces
`InvalidDimension`. -/
theorem fitter_zero_width_not_invalidDimension :
    create_banner_pdf_from_image ⟨0, 500, []⟩ 612 792 ≠
      .error .invalidDimension ∧
    create_banner_pdf_from_image ⟨0, 500, []⟩ 612 792 =
      .error .zeroDivisionError := by
  constructor <;> simp [create_banner_pdf_from_image]

/-- C7 amended: when either pixel dimension of the image is zero, the
fitter fails with the Python `ZeroDivisionError` (there is no dimension
validation and no typed `InvalidDimension` error in the code). -/
theorem fitter_zero_dimension_zeroDivision (img : RasterImage) (tw th : ℚ)
    (h : img.width = 0 ∨ img.height = 0) :
    create_banner_pdf_from_image img tw th = .error .zeroDivisionError := by
  unfold create_banner_pdf_from_image
  rw [if_pos h]

/-- C7 amended witness: a zero-width image fails with the
division-by-zero error. -/
theorem fitter_zero_dimension_zeroDivision_witness :
    create_banner_pdf_from_image ⟨0, 7, [1]⟩ 612 792 =
      .error .zeroDivisionError :=
  fitter_zero_dimension_zeroDivision ⟨0, 7, [1]⟩ 612 792 (Or.inl rfl)

/-- C8 (code bug): the page renderer is not total on well-formed inputs.
A 10000 by 1 pixel image against a 612 by 792 point target gives a
computed draw height of `153 / 2500 < 1`; Python `int()` truncates it to 0
and the PIL resize step rejects the zero size, so
`create_banner_pdf_from_image` fails instead of succeeding. -/
theorem renderer_fails_on_subunit_draw_height :
    create_banner_pdf_from_image ⟨10000, 1, []⟩ 612 792 =
      .error .resizeValueError := by
  norm_num [create_banner_pdf_from_image, fitRect, pyInt, pilResize, min_def]

/-- C9 counterexample: two invocations with distinct chat and message
identifiers still use the same intermediate banner PDF path, because that
path depends only on the basename of the per-chat banner image path, which
is the constant `banner.png`. -/
theorem banner_tmp_path_collision :
    ((1 : Int), (100 : Nat)) ≠ ((2 : Int), (200 : Nat)) ∧
    bannerPdfTmpPath (banner_path_for_chat 1) =
      bannerPdfTmpPath (banner_path_for_chat 2) :=
  ⟨by decide, rfl⟩

/-- C9 amended: the intermediate banner PDF path is the same for all
invocations (it never incorporates a request or message identifier), so
concurrent invocations share and can overwrite the same temporary banner
file. -/
theorem banner_tmp_path_constant (c₁ c₂ : Int) :
    bannerPdfTmpPath (banner_path_for_chat c₁) =
      bannerPdfTmpPath (banner_path_for_chat c₂) := rfl

/-- C10: whenever the banner renderer succeeds it returns a document with
exactly one page, so the splicer's loop over the banner document's pages
appends exactly one replacement page. -/
theorem create_banner_single_page (img : RasterImage) (w h : ℚ) (d : Document)
    (hok : create_banner_pdf_from_image img w h = .ok d) :
    d.pages.length = 1 := by
  obtain ⟨p, hp⟩ := create_banner_ok_pages img w h d hok
  rw [hp]
  rfl

/-- C10 witness: the sample image rendered at a 10 by 10 target yields a
one-page banner document. -/
theorem create_banner_single_page_witness :
    sampleBannerDoc.pages.length = 1 :=
  create_banner_single_page sampleImg 10 10 sampleBannerDoc (by
    norm_num [create_banner_pdf_from_image, sampleImg, sampleBannerDoc, fitRect,
      pyInt, pilResize, min_def, Int.toNat_ofNat]
    rfl)

end BannerBot
